import Mathlib

/-!
Verification development for the x402-minter repository.

Shallow embedding of the two source files:
  * `src/x402_minter/x402_minter.py` (class `X402Minter`)
  * `src/main.py` (account orchestration)

Modelling conventions:
  * Python values reaching the validator are modelled by the inductive `PVal`
    (dict / list / str / int / bool / None); Python dicts are association lists
    with unique keys, looked up first-match.
  * fallible Python code (raise) is modelled with `Except PyErr`; the
    distinct exception classes (`ValueError`, `TypeError`, `KeyError`,
    `IndexError`) are constructors of `PyErr`.
  * time and randomness are explicit parameters: `now : Int` stands for
    `int(datetime.now(timezone.utc).timestamp())`, `tokenHex : String` for
    `secrets.token_hex(32)`, and the jitter draw `j : Nat` (`j < 1000`) for
    `secrets.randbelow(1000)`.
  * HTTP traffic is an oracle `Nat → AttemptOutcome` giving, for each attempt
    number (1-based), the outcome of `self.s.get(url, ...)` on that attempt.
  * floats in `_sleep_with_backoff` are modelled as exact rationals.
-/

/-- A Python value, as far as the payment-body validator can observe it. -/
inductive PVal : Type where
  | str (s : String)
  | int (n : Int)
  | bool (b : Bool)
  | none
  | list (xs : List PVal)
  | dict (kvs : List (String × PVal))

/-- A Python exception raised by the modelled code. -/
inductive PyErr : Type where
  | valueError (msg : String)
  | typeError
  | keyError
  | indexError
deriving DecidableEq

/-- First-match lookup in an association list (Python dict access; keys are
unique in a Python dict so first-match agrees with dict semantics). -/
def lookupKey (kvs : List (String × PVal)) (k : String) : Option PVal :=
  match kvs with
  | [] => Option.none
  | (k', v) :: rest => if k' = k then Option.some v else lookupKey rest k

/-- Python `len(s)` on a string counts code points: the length of `s.data`. -/
def pyStrLen (s : String) : Nat := s.data.length

/-- Python `s.startswith(p)` (character-wise prefix test). -/
def pyStartsWith (s p : String) : Bool := p.data.isPrefixOf s.data

/-- Python substring containment `needle in hay` for strings. -/
def strContainsSub (hay needle : String) : Bool :=
  (List.range (hay.data.length + 1)).any (fun i => needle.data.isPrefixOf (hay.data.drop i))

/-- Python `==` between a list element and the string `key` (cross-type
`==` is `False` in Python for these value shapes). -/
def pvalEqStr (key : String) : PVal → Bool
  | .str s => s == key
  | _ => false

/-- Python `key in entry` (membership test). On a dict it tests keys, on a
list it tests elements, on a string it tests substrings; on non-container
values (`int`, `bool`, `None`) it raises `TypeError`. -/
def pyContains (entry : PVal) (key : String) : Except PyErr Bool :=
  match entry with
  | .dict kvs => .ok (lookupKey kvs key).isSome
  | .list xs => .ok (xs.any (pvalEqStr key))
  | .str s => .ok (strContainsSub s key)
  | _ => .error .typeError

/-- Python `entry[key]` subscription with a string key: dict lookup
(`KeyError` when absent), `TypeError` on any non-dict value. -/
def pyGetItemS (entry : PVal) (key : String) : Except PyErr PVal :=
  match entry with
  | .dict kvs =>
    match lookupKey kvs key with
    | Option.some v => .ok v
    | Option.none => .error .keyError
  | _ => .error .typeError

/-- Python `v[0]` on a value expected to be a list. -/
def pyGetIndex0 (v : PVal) : Except PyErr PVal :=
  match v with
  | .list (x :: _) => .ok x
  | .list [] => .error .indexError
  | _ => .error .typeError

/-- The per-entry part of `X402Minter._validate_payment_body`
(src/x402_minter/x402_minter.py lines 60-71): membership checks for
`payTo` and `maxAmountRequired` in order, then the subscriptions, then the
address-shape check on `payTo` and the string check on `maxAmountRequired`. -/
def validateEntry (entry : PVal) : Except PyErr Unit :=
  match pyContains entry "payTo" with
  | .error e => .error e
  | .ok false => .error (.valueError "Missing required field: body[\x27accepts\x27][0][\x27payTo\x27]")
  | .ok true =>
    match pyContains entry "maxAmountRequired" with
    | .error e => .error e
    | .ok false => .error (.valueError "Missing required field: body[\x27accepts\x27][0][\x27maxAmountRequired\x27]")
    | .ok true =>
      match pyGetItemS entry "payTo" with
      | .error e => .error e
      | .ok toV =>
        match pyGetItemS entry "maxAmountRequired" with
        | .error e => .error e
        | .ok value =>
          match toV with
          | .str s =>
            if pyStartsWith s "0x" && (pyStrLen s = 42 || pyStrLen s = 66) then
              match value with
              | .str _ => .ok ()
              | _ => .error (.valueError "maxAmountRequired must be a string (e.g., \x270x...\x27 or decimal string)")
            else .error (.valueError "payTo must be a valid Ethereum address string")
          | _ => .error (.valueError "payTo must be a valid Ethereum address string")

/-- `X402Minter._validate_payment_body` (src/x402_minter/x402_minter.py
lines 51-71): the body must be a dict, `body.get("accepts")` must be a
non-empty list, and its first entry must pass `validateEntry`. -/
def validatePaymentBody (body : PVal) : Except PyErr Unit :=
  match body with
  | .dict kvs =>
    match (lookupKey kvs "accepts").getD PVal.none with
    | .list [] => .error (.valueError "body[\x27accepts\x27] must be a non-empty list")
    | .list (entry :: _) => validateEntry entry
    | _ => .error (.valueError "body[\x27accepts\x27] must be a non-empty list")
  | _ => .error (.valueError "body must be a dict")

/-- Session configuration of an `X402Minter` instance: the signer address
and the protocol parameters fixed in `__init__`. -/
structure MinterConfig : Type where
  address : String
  network : String
  scheme : String
  x402Version : Int
deriving DecidableEq

/-- The authorization dict built in `build_x_payment_header`
(src/x402_minter/x402_minter.py lines 86-93); `validAfter`/`validBefore`
hold `str(valid_after)`/`str(valid_before)`. -/
structure Authorization : Type where
  fromAddr : String
  nonce : String
  toAddr : String
  validAfter : String
  validBefore : String
  value : String
deriving DecidableEq

/-- The `payload` field of the x-payment envelope. -/
structure PaymentPayload : Type where
  authorization : Authorization
  signature : String
deriving DecidableEq

/-- The x-payment payload dict of `build_x_payment_header`
(src/x402_minter/x402_minter.py lines 101-106), before base64 transport
encoding. -/
structure XPaymentEnvelope : Type where
  network : String
  payload : PaymentPayload
  scheme : String
  x402Version : Int
deriving DecidableEq

/-- A JSON string literal (quote wrapping; the signed values are hex
strings and addresses, which need no escaping). -/
def jsonStr (s : String) : String := "\"" ++ s ++ "\""

/-- `json.dumps(authorization, separators=(",", ":"), sort_keys=True)`:
canonical JSON with the keys in sorted order
from < nonce < to < validAfter < validBefore < value. -/
def canonicalAuthJson (a : Authorization) : String :=
  "\x7b\"from\":" ++ jsonStr a.fromAddr ++ ",\"nonce\":" ++ jsonStr a.nonce ++
    ",\"to\":" ++ jsonStr a.toAddr ++ ",\"validAfter\":" ++ jsonStr a.validAfter ++
    ",\"validBefore\":" ++ jsonStr a.validBefore ++ ",\"value\":" ++ jsonStr a.value ++ "\x7d"

/-- `X402Minter.build_x_payment_header` (src/x402_minter/x402_minter.py
lines 74-114), up to the structured envelope (the final canonical-JSON +
base64 transport encoding of the envelope is a deterministic injective
post-processing step and is not needed by any claim).

`sign` is the external eth-account signing collaborator
(`sign_message(encode_defunct(text=...))` as hex without the `0x`),
`now` is `int(datetime.now(timezone.utc).timestamp())`, and `tokenHex`
is the fresh draw `secrets.token_hex(32)`.

After `_validate_payment_body` succeeds, `body["accepts"][0]["payTo"]`
and `...["maxAmountRequired"]` are guaranteed to be strings; the final
`.error .typeError` fallbacks mirror what subscription/use of a non-string
would do and are unreachable for inputs that pass validation. -/
def buildXPaymentHeader (cfg : MinterConfig) (sign : String → String) (body : PVal)
    (now : Int) (tokenHex : String) : Except PyErr XPaymentEnvelope :=
  match validatePaymentBody body with
  | .error e => .error e
  | .ok _ =>
    let validAfter : Int := now
    let validBefore : Int := validAfter + 900
    match pyGetItemS body "accepts" with
    | .error e => .error e
    | .ok accepts =>
      match pyGetIndex0 accepts with
      | .error e => .error e
      | .ok entry =>
        match pyGetItemS entry "payTo" with
        | .error e => .error e
        | .ok toV =>
          match pyGetItemS entry "maxAmountRequired" with
          | .error e => .error e
          | .ok value =>
            match toV, value with
            | .str toS, .str valS =>
              let nonce : String := "0x" ++ tokenHex
              let authorization : Authorization :=
                ⟨cfg.address, nonce, toS, toString validAfter, toString validBefore, valS⟩
              let signature : String := "0x" ++ sign (canonicalAuthJson authorization)
              .ok ⟨cfg.network, ⟨authorization, signature⟩, cfg.scheme, cfg.x402Version⟩
            | _, _ => .error .typeError

/-- `X402Minter._sleep_with_backoff` (src/x402_minter/x402_minter.py lines
44-48): the slept delay, as an exact rational.  `j` models the draw
`secrets.randbelow(1000)` (so `j < 1000`); the Python code computes
`delay = min(cap, base * 2 ** (attempt - 1))` and then scales it by
`0.6 + 0.8 * j / 1000.0`. -/
def backoffDelay (attempt : Nat) (base cap : ℚ) (j : Nat) : ℚ :=
  min cap (base * 2 ^ (attempt - 1)) * (6/10 + 8/10 * (j : ℚ) / 1000)

/-- The outcome of one `self.s.get(url, timeout=...)` call inside
`_mint_once_with_retry`: a caught `Timeout`, a caught
`RequestException`/`PaymentError`, or an HTTP response with its status
code and body text. -/
inductive AttemptOutcome : Type where
  | timeoutExc
  | requestExc
  | http (code : Nat) (body : String)
deriving DecidableEq

/-- Classification of one attempt by the `try/except/else` ladder of
`_mint_once_with_retry` (src/x402_minter/x402_minter.py lines 131-157):
caught exceptions and HTTP 402 / the transient set / unexpected codes are
retried; 200 returns; 404 and 410 raise `X402MintError` at once. -/
inductive StepClass : Type where
  | success (body : String)
  | permanent (code : Nat)
  | retryable
deriving DecidableEq

/-- One step of the outcome classification, following the source order of
the branches. -/
def stepClassify : AttemptOutcome → StepClass
  | .timeoutExc => .retryable
  | .requestExc => .retryable
  | .http code body =>
    if code = 200 then .success body
    else if code = 402 then .retryable
    else if code = 408 ∨ code = 425 ∨ code = 429 ∨ code = 500 ∨ code = 502 ∨ code = 503 ∨ code = 504 then .retryable
    else if code = 410 ∨ code = 404 then .permanent code
    else .retryable

/-- Result of `_mint_once_with_retry`: the 200 response body, or the
raised `X402MintError` — `"Permanent failure: {code}"` on 404/410, or
`"Mint failed after {max_retries} attempts"` on budget exhaustion. -/
inductive MintResult : Type where
  | success (body : String)
  | permanentFailure (code : Nat)
  | exhausted
deriving DecidableEq

/-- The `while True` loop of `_mint_once_with_retry`
(src/x402_minter/x402_minter.py lines 129-162), with the remaining retry
budget made structural: at attempt number `attempt`, `budget` equals
`max_retries - attempt` (clamped at 0), so `budget = 0` exactly when the
source's `attempt >= max_retries` exhaustion test fires.  Returns the
terminal result together with the number of the attempt on which the loop
ended — i.e. the total number of HTTP requests issued. -/
def runLoop (oracle : Nat → AttemptOutcome) : Nat → Nat → MintResult × Nat
  | attempt, budget =>
    match stepClassify (oracle attempt) with
    | .success b => (.success b, attempt)
    | .permanent c => (.permanentFailure c, attempt)
    | .retryable =>
      match budget with
      | 0 => (.exhausted, attempt)
      | b + 1 => runLoop oracle (attempt + 1) b

/-- `X402Minter._mint_once_with_retry(url, max_retries=maxRetries)`:
attempts start at 1, and the first exhaustion check happens after the
first attempt, so the initial budget is `maxRetries - 1`. -/
def mintOnceWithRetry (oracle : Nat → AttemptOutcome) (maxRetries : Nat) : MintResult × Nat :=
  runLoop oracle 1 (maxRetries - 1)

/-- Observable actions of the retry-loop body, for stating what each
attempt does.  `headerBuild` stands for a call to
`X402Minter.build_x_payment_header`; the loop body of
`_mint_once_with_retry` (lines 129-162) contains `self.s.get` and
`self._sleep_with_backoff` calls but no such call, so the trace below
never emits it. -/
inductive LoopEvent : Type where
  | headerBuild
  | httpGet
  | sleep
deriving DecidableEq

/-- Event trace of the retry loop, branch for branch the same recursion as
`runLoop`: every attempt issues exactly one `self.s.get` (`httpGet`), and a
retried attempt with remaining budget is followed by one
`_sleep_with_backoff` (`sleep`). -/
def runLoopTrace (oracle : Nat → AttemptOutcome) : Nat → Nat → List LoopEvent
  | attempt, budget =>
    LoopEvent.httpGet ::
      match stepClassify (oracle attempt) with
      | .success _ => []
      | .permanent _ => []
      | .retryable =>
        match budget with
        | 0 => []
        | b + 1 => LoopEvent.sleep :: runLoopTrace oracle (attempt + 1) b

/-- Full event trace of `_mint_once_with_retry(url, max_retries=maxRetries)`. -/
def mintTrace (oracle : Nat → AttemptOutcome) (maxRetries : Nat) : List LoopEvent :=
  runLoopTrace oracle 1 (maxRetries - 1)

/-- The per-unit datum appended to `results` in `X402Minter.mint`
(src/x402_minter/x402_minter.py lines 180-187): `resp.json()` when the body
parses, else the `{"raw_text": resp.text}` fallback. -/
inductive UnitData (α : Type) : Type where
  | parsed (v : α)
  | rawText (s : String)
deriving DecidableEq

/-- `resp.json()` with the `except ValueError` fallback; `decode` is the
JSON decoder of the requests library, abstracted as a parameter. -/
def unitDataOf {α : Type} (decode : String → Option α) (body : String) : UnitData α :=
  match decode body with
  | Option.some v => .parsed v
  | Option.none => .rawText body

/-- An error terminating `X402Minter.mint`: the `ValueError` for a
non-positive amount, or the propagated `X402MintError` of a unit
(permanent failure or retry-budget exhaustion, with the data its message
carries). -/
inductive SessionError : Type where
  | invalidAmount
  | permanentFailure (code : Nat)
  | exhausted (maxRetries : Nat)
deriving DecidableEq

/-- Observable record of one `X402Minter.mint` run.  `result` is what the
call returns or raises: the list of unit data on success, the error
otherwise — a raised error carries no unit data, exactly as the source's
`raise` abandons the local `results` list.  `completedUnits` and
`unitsAttempted` are ghost trace fields recording, respectively, the units
that had completed when the run ended and the number of units for which at
least one HTTP request was issued. -/
structure SessionRun (α : Type) : Type where
  result : Except SessionError (List (UnitData α))
  completedUnits : List (UnitData α)
  unitsAttempted : Nat

/-- The `for i in range(1, amount + 1)` loop of `X402Minter.mint`
(src/x402_minter/x402_minter.py lines 173-187): process units `i`,
`i + 1`, ... while `rem` units remain.  `oracles u` is the HTTP oracle of
unit `u`; each unit runs `_mint_once_with_retry(url)` with the default
budget `max_retries = 12`. -/
def mintFrom {α : Type} (decode : String → Option α) (oracles : Nat → Nat → AttemptOutcome)
    (i : Nat) : Nat → SessionRun α
  | 0 => ⟨.ok [], [], 0⟩
  | rem + 1 =>
    match mintOnceWithRetry (oracles i) 12 with
    | (.success body, _) =>
      let d := unitDataOf decode body
      let r := mintFrom decode oracles (i + 1) rem
      ⟨r.result.map (fun l => d :: l), d :: r.completedUnits, r.unitsAttempted + 1⟩
    | (.permanentFailure c, _) => ⟨.error (.permanentFailure c), [], 1⟩
    | (.exhausted, _) => ⟨.error (.exhausted 12), [], 1⟩

/-- `X402Minter.mint(url, amount)` (src/x402_minter/x402_minter.py lines
165-190): `ValueError` for `amount <= 0`, otherwise the unit loop. -/
def mint {α : Type} (decode : String → Option α) (oracles : Nat → Nat → AttemptOutcome)
    (amount : Int) : SessionRun α :=
  if amount ≤ 0 then ⟨.error .invalidAmount, [], 0⟩
  else mintFrom decode oracles 1 amount.toNat

/-- A Python exception as observed by the handlers in `main.py`:
`type(e).__name__` and `str(e)`. -/
structure PyExc : Type where
  kind : String
  msg : String
deriving DecidableEq

/-- The per-account result dict of `run_minter_for_account`
(src/main.py lines 49-73).  The success branch also records
`elapsed_sec`, which is wall-clock time and is not modelled. -/
structure AccountResult (α : Type) : Type where
  private_key_suffix : String
  ok : Bool
  results : Option (List (UnitData α))
  error : Option String
  error_type : Option String
deriving DecidableEq

/-- Python `pk[-6:]`: the last six characters of the private-key string
(the whole string when it is shorter). -/
def pyLast6 (s : String) : String := String.mk (s.data.drop (s.data.length - 6))

/-- `run_minter_for_account` (src/main.py lines 21-73).  `session` is the
outcome of the `X402Minter(...)` construction plus `minter.mint(url,
amount)` call: its returned unit list, or the exception it raised.  Both
`except` branches of the source produce the same record shape (suffix,
`ok=False`, `str(e)`, `type(e).__name__`), so they are one branch here. -/
def runMinterForAccount {α : Type} (pk : String)
    (session : Except PyExc (List (UnitData α))) : AccountResult α :=
  match session with
  | .ok rs => ⟨pyLast6 pk, true, Option.some rs, Option.none, Option.none⟩
  | .error e => ⟨pyLast6 pk, false, Option.none, Option.some e.msg, Option.some e.kind⟩

/-- `run_parallel_mints` (src/main.py lines 76-137): one
`run_minter_for_account` task per private key, results collected into one
list.  The thread pool and `as_completed` collection order are
concurrency; the model collects in submission order (the claims settled
against it are order-independent: one result per account, and the
conversion of each account's failure).  The extra `except` around
`fut.result()` (lines 117-126) is unreachable in the model because
`run_minter_for_account` itself never raises. -/
def runParallelMints {α : Type}
    (accounts : List (String × Except PyExc (List (UnitData α)))) : List (AccountResult α) :=
  accounts.map (fun a => runMinterForAccount a.1 a.2)

/-- Claim-side predicate, written from the specification's words (§4.1):
the body is valid when it is a mapping whose `accepts` is a non-empty
list, the first entry carries `payTo` and `maxAmountRequired`, `payTo` is
a string with the fixed `0x` prefix and length in the allowed set
`{42, 66}`, and `maxAmountRequired` is a string.  A first entry that is
not a mapping lacks the two fields, so such a body is invalid.
`entryClaim` is the per-entry part, for a mapping first entry. -/
def entryClaim (ekvs : List (String × PVal)) : Bool :=
  match lookupKey ekvs "payTo", lookupKey ekvs "maxAmountRequired" with
  | Option.some (.str s), Option.some (.str _) =>
    pyStartsWith s "0x" && (pyStrLen s = 42 || pyStrLen s = 66)
  | _, _ => false

/-- Claim-side validity of a whole payment body, from the specification's
words: a mapping with a non-empty `accepts` list whose first entry (a
mapping carrying both fields) passes `entryClaim`. -/
def validBodyClaim (body : PVal) : Bool :=
  match body with
  | .dict kvs =>
    match lookupKey kvs "accepts" with
    | Option.some (.list (entry :: _)) =>
      match entry with
      | .dict ekvs => entryClaim ekvs
      | _ => false
    | _ => false
  | _ => false

/-- Whether a raised exception is the `ValueError` the validator uses for
its fatal validation failures. -/
def isValueError (r : Except PyErr Unit) : Bool :=
  match r with
  | .error (.valueError _) => true
  | _ => false

/-- Shape restriction under which the validator's control flow only meets
mappings: whenever the body is a dict whose `accepts` is a non-empty
list, the first entry of that list is itself a dict.  (Bodies that fail
validation before the first entry is touched satisfy it vacuously.) -/
def firstEntryIsMapping (body : PVal) : Bool :=
  match body with
  | .dict kvs =>
    match (lookupKey kvs "accepts").getD PVal.none with
    | .list (entry :: _) =>
      match entry with
      | .dict _ => true
      | _ => false
    | _ => true
  | _ => true

/-- Fixtures for concrete evaluations. -/
def addr42 : String := "0xaaaaaaaaaaaaaaaaaaaaaaaaaaaaaaaaaaaaaaaa"

/-- A payment body passing `_validate_payment_body`. -/
def validBody0 : PVal :=
  .dict [("accepts", .list [.dict [("payTo", .str addr42), ("maxAmountRequired", .str "1000")]])]

/-- A payment body whose `accepts` first entry is the integer `5`. -/
def badEntryBody0 : PVal := .dict [("accepts", .list [.int 5])]

/-- A concrete minter configuration. -/
def cfg0 : MinterConfig := ⟨"0xme", "base", "exact", 1⟩

/-- A concrete signing collaborator. -/
def sign0 : String → String := fun _ => "sig"

/-- The envelope `build_x_payment_header` produces from `cfg0`, `sign0`,
`validBody0`, `now = 1000`, `tokenHex = "ab"`. -/
def env0 : XPaymentEnvelope :=
  ⟨"base", ⟨⟨"0xme", "0xab", addr42, "1000", "1900", "1000"⟩, "0xsig"⟩, "exact", 1⟩

/-- The envelope built from the same inputs but `tokenHex = "cd"`. -/
def envB : XPaymentEnvelope :=
  ⟨"base", ⟨⟨"0xme", "0xcd", addr42, "1000", "1900", "1000"⟩, "0xsig"⟩, "exact", 1⟩

/-- The identity JSON decoder used in concrete session runs. -/
def decodeId : String → Option String := fun s => Option.some s

/-- An HTTP oracle answering 200 on every attempt. -/
def oracle200 : Nat → AttemptOutcome := fun _ => .http 200 "ok"

/-- An HTTP oracle answering 429 on attempt 1 and 404 afterwards. -/
def oracleC4 : Nat → AttemptOutcome :=
  fun j => if j = 1 then .http 429 "busy" else .http 404 "gone"

/-- An HTTP oracle answering 500 on every attempt. -/
def oracle500 : Nat → AttemptOutcome := fun _ => .http 500 "err"

/-- An HTTP oracle answering 402 on attempts 1-2 and 200 afterwards. -/
def oracleC6 : Nat → AttemptOutcome :=
  fun j => if j ≤ 2 then .http 402 "wait" else .http 200 "minted"

/-- Per-unit HTTP oracles: unit 1 succeeds at once, unit 2 answers 404 at
once, any later unit would answer 200. -/
def oraclesC1 : Nat → Nat → AttemptOutcome :=
  fun u _ => if u = 1 then .http 200 "ok1" else if u = 2 then .http 404 "gone" else .http 200 "never"

/-- A concrete two-account batch: the first account's session raises, the
second returns no units. -/
def accounts0 : List (String × Except PyExc (List (UnitData Nat))) :=
  [("0xdeadbeef", .error ⟨"RuntimeError", "boom"⟩), ("0xcafe", .ok [])]

/-- The `SessionError` that `X402Minter.mint` propagates when a unit's
`_mint_once_with_retry` call (made with its default `max_retries = 12`)
ends in the given result: the permanent failure's code, or the
retry-budget exhaustion; `none` for a successful unit. -/
def failureErrOf : MintResult → Option SessionError
  | .success _ => Option.none
  | .permanentFailure c => Option.some (.permanentFailure c)
  | .exhausted => Option.some (.exhausted 12)

/-! ## Helper lemmas -/

theorem stepClassify_200 (body : String) : stepClassify (.http 200 body) = .success body := rfl

theorem stepClassify_404_410 (c : Nat) (body : String) (h : c = 404 ∨ c = 410) :
    stepClassify (.http c body) = .permanent c := by
  rcases h with h | h <;> subst h <;> rfl

theorem stepClassify_retry_codes (c : Nat) (body : String)
    (h : c = 402 ∨ c = 429 ∨ c = 500) : stepClassify (.http c body) = .retryable := by
  rcases h with h | h | h <;> subst h <;> rfl

theorem runLoop_skip (oracle : Nat → AttemptOutcome) :
    ∀ d a b : Nat, (∀ j, a ≤ j → j < a + d → stepClassify (oracle j) = .retryable) →
      d ≤ b → runLoop oracle a b = runLoop oracle (a + d) (b - d) := by
  intro d
  induction d with
  | zero => intro a b _ _; simp
  | succ d ih =>
    intro a b hall hdb
    have hret : stepClassify (oracle a) = .retryable := hall a le_rfl (by omega)
    obtain ⟨b', rfl⟩ : ∃ b', b = b' + 1 := ⟨b - 1, by omega⟩
    have step : runLoop oracle a (b' + 1) = runLoop oracle (a + 1) b' := by
      rw [runLoop, hret]
    rw [step]
    have ih' := ih (a + 1) b'
      (fun j h1 h2 => hall j (by omega) (by omega)) (by omega)
    rw [ih']
    congr 1 <;> omega

theorem runLoopTrace_headerBuild (oracle : Nat → AttemptOutcome) :
    ∀ b a : Nat, (runLoopTrace oracle a b).count LoopEvent.headerBuild = 0 := by
  intro b
  induction b with
  | zero =>
    intro a
    rw [runLoopTrace]
    cases h : stepClassify (oracle a) <;> simp
  | succ b ih =>
    intro a
    rw [runLoopTrace]
    cases h : stepClassify (oracle a) <;> simp [ih]

theorem runLoopTrace_httpGet (oracle : Nat → AttemptOutcome) :
    ∀ b a : Nat, (runLoopTrace oracle a b).count LoopEvent.httpGet + a = (runLoop oracle a b).2 + 1 := by
  intro b
  induction b with
  | zero =>
    intro a
    rw [runLoopTrace, runLoop]
    cases h : stepClassify (oracle a) <;> simp <;> omega
  | succ b ih =>
    intro a
    rw [runLoopTrace, runLoop]
    cases h : stepClassify (oracle a) <;> simp
    · omega
    · omega
    · have := ih (a + 1)
      omega

theorem runLoop_success (oracle : Nat → AttemptOutcome) (a b : Nat) (s : String)
    (h : stepClassify (oracle a) = .success s) : runLoop oracle a b = (.success s, a) := by
  cases b <;> rw [runLoop, h]

theorem runLoop_permanent (oracle : Nat → AttemptOutcome) (a b c : Nat)
    (h : stepClassify (oracle a) = .permanent c) : runLoop oracle a b = (.permanentFailure c, a) := by
  cases b <;> rw [runLoop, h]

theorem runLoop_retry_zero (oracle : Nat → AttemptOutcome) (a : Nat)
    (h : stepClassify (oracle a) = .retryable) : runLoop oracle a 0 = (.exhausted, a) := by
  rw [runLoop, h]

theorem string_append_cancel {p a b : String} (h : p ++ a = p ++ b) : a = b := by
  have hd := congrArg String.data h
  simp only [String.data_append] at hd
  exact String.ext (List.append_cancel_left hd)

/-! ## Claims -/

/-- C4: if any attempt of the retry loop receives HTTP status 404 or 410,
the loop terminates with a permanent failure (`X402MintError` "Permanent
failure") on that first occurrence, regardless of `max_retries` and of how
many attempts remain, and no further request is sent for that unit: the
request count equals the number of that very attempt. -/
theorem c4_permanent_on_404_410 (oracle : Nat → AttemptOutcome) (maxRetries i c : Nat)
    (body : String) (hi : 1 ≤ i)
    (hreach : ∀ j, 1 ≤ j → j < i → stepClassify (oracle j) = .retryable ∧ j < maxRetries)
    (hc : c = 404 ∨ c = 410) (hat : oracle i = .http c body) :
    mintOnceWithRetry oracle maxRetries = (.permanentFailure c, i) := by
  have hskip := runLoop_skip oracle (i - 1) 1 (maxRetries - 1)
    (fun j h1 h2 => (hreach j h1 (by omega)).1)
  have hd : i - 1 ≤ maxRetries - 1 := by
    rcases Nat.eq_or_lt_of_le hi with h | h
    · omega
    · have := (hreach (i - 1) (by omega) (by omega)).2
      omega
  rw [mintOnceWithRetry, hskip hd]
  have h1i : 1 + (i - 1) = i := by omega
  rw [h1i]
  exact runLoop_permanent oracle i _ c (by rw [hat]; exact stepClassify_404_410 c body hc)

/-- C4 witness: with an oracle answering 429 then 404, and `max_retries =
12`, the loop raises the permanent failure on attempt 2 and sends exactly
2 requests. -/
theorem c4_witness : mintOnceWithRetry oracleC4 12 = (.permanentFailure 404, 2) := by
  refine c4_permanent_on_404_410 oracleC4 12 2 404 "gone" (by decide) ?_ (Or.inl rfl) (by decide)
  intro j h1 h2
  have hj : j = 1 := by omega
  subst hj
  exact ⟨by decide, by decide⟩

/-- C5: if `max_retries ≥ 1` consecutive attempts each resolve to a
retryable outcome (neither HTTP 200 nor 404/410), the retry loop raises
the exhaustion `X402MintError` and the request count equals
`max_retries`: no `(max_retries + 1)`-th request is ever sent. -/
theorem c5_exhausted_after_max (oracle : Nat → AttemptOutcome) (maxRetries : Nat)
    (h1 : 1 ≤ maxRetries)
    (hall : ∀ j, 1 ≤ j → j ≤ maxRetries → stepClassify (oracle j) = .retryable) :
    mintOnceWithRetry oracle maxRetries = (.exhausted, maxRetries) := by
  have hskip := runLoop_skip oracle (maxRetries - 1) 1 (maxRetries - 1)
    (fun j hj1 hj2 => hall j hj1 (by omega))
  rw [mintOnceWithRetry, hskip le_rfl]
  have h1m : 1 + (maxRetries - 1) = maxRetries := by omega
  rw [h1m, Nat.sub_self]
  exact runLoop_retry_zero oracle maxRetries (hall maxRetries h1 le_rfl)

/-- C5 witness: three consecutive HTTP 500 answers with `max_retries = 3`
raise the exhaustion error after exactly 3 requests. -/
theorem c5_witness : mintOnceWithRetry oracle500 3 = (.exhausted, 3) :=
  c5_exhausted_after_max oracle500 3 (by decide) (fun j _ _ => rfl)

/-- C6: if the first `k` attempts (`k < max_retries`) receive HTTP 402,
429 or 500 and attempt `k + 1` receives HTTP 200, the loop returns the
body of the 200 response, after exactly `k + 1` requests. -/
theorem c6_success_after_transients (oracle : Nat → AttemptOutcome) (maxRetries k : Nat)
    (body : String) (hk : k < maxRetries)
    (hretry : ∀ j, 1 ≤ j → j ≤ k → ∃ c b, oracle j = .http c b ∧ (c = 402 ∨ c = 429 ∨ c = 500))
    (h200 : oracle (k + 1) = .http 200 body) :
    mintOnceWithRetry oracle maxRetries = (.success body, k + 1) := by
  have hskip := runLoop_skip oracle k 1 (maxRetries - 1)
    (fun j hj1 hj2 => by
      obtain ⟨c, b, hj, hc⟩ := hretry j hj1 (by omega)
      rw [hj]
      exact stepClassify_retry_codes c b hc)
  rw [mintOnceWithRetry, hskip (by omega), Nat.add_comm 1 k]
  exact runLoop_success oracle (k + 1) _ body (by rw [h200]; exact stepClassify_200 body)

/-- C6 witness: 402 on attempts 1-2, then 200 with body "minted" on
attempt 3, with `max_retries = 12`: success with the 200 body after 3
requests. -/
theorem c6_witness : mintOnceWithRetry oracleC6 12 = (.success "minted", 3) := by
  refine c6_success_after_transients oracleC6 12 2 "minted" (by decide) ?_ (by decide)
  intro j h1 h2
  refine ⟨402, "wait", ?_, Or.inl rfl⟩
  simp [oracleC6, h2]

/-- C3 counterexample: the claimed lower bound `0.6 × base × 2^(n-1)`
uses the *uncapped* exponential term.  At `n = 10`, `base = 0.4`,
`cap = 6.0` and jitter draw `j = 0` (a jitter factor of exactly 0.6), the
code computes `0.6 × min(6.0, 0.4 × 512) = 3.6`, far below the claimed
lower bound `0.6 × 0.4 × 512 = 122.88` — the claim, as stated, is false
whenever the cap binds. -/
theorem c3_counterexample :
    ¬ (6/10 * ((2/5 : ℚ) * 2 ^ (10 - 1)) ≤ backoffDelay 10 (2/5) 6 0) := by
  rw [backoffDelay]
  rw [min_eq_left (by norm_num)]
  norm_num

/-- C3 (amended): for every attempt `n ≥ 1`, `base > 0`, `cap > 0` and
jitter draw `j < 1000`, the computed backoff delay lies in
`[0.6 × min(cap, base × 2^(n-1)), 1.4 × min(cap, base × 2^(n-1)))`: both
bounds are taken on the *capped* exponential term (the jitter factor
`0.6 + 0.8 × j/1000` is drawn from `[0.6, 1.4)` and scales the capped
delay). -/
theorem c3_backoff_bounds (n : Nat) (base cap : ℚ) (hn : 1 ≤ n)
    (hb : 0 < base) (hc : 0 < cap) (j : Nat) (hj : j < 1000) :
    6/10 * min cap (base * 2 ^ (n - 1)) ≤ backoffDelay n base cap j ∧
      backoffDelay n base cap j < 14/10 * min cap (base * 2 ^ (n - 1)) := by
  have hm : 0 < min cap (base * 2 ^ (n - 1)) := lt_min hc (by positivity)
  have hjq : (j : ℚ) < 1000 := by exact_mod_cast hj
  have hjq0 : (0 : ℚ) ≤ (j : ℚ) := Nat.cast_nonneg j
  have hf1 : 6/10 ≤ 6/10 + 8/10 * (j : ℚ) / 1000 := by nlinarith
  have hf2 : 6/10 + 8/10 * (j : ℚ) / 1000 < 14/10 := by nlinarith
  rw [backoffDelay]
  constructor
  · calc 6/10 * min cap (base * 2 ^ (n - 1))
        = min cap (base * 2 ^ (n - 1)) * (6/10) := by ring
      _ ≤ min cap (base * 2 ^ (n - 1)) * (6/10 + 8/10 * (j : ℚ) / 1000) :=
          mul_le_mul_of_nonneg_left hf1 hm.le
  · calc min cap (base * 2 ^ (n - 1)) * (6/10 + 8/10 * (j : ℚ) / 1000)
        < min cap (base * 2 ^ (n - 1)) * (14/10) := by
          exact mul_lt_mul_of_pos_left hf2 hm
      _ = 14/10 * min cap (base * 2 ^ (n - 1)) := by ring

/-- C3 witness: at `n = 1`, `base = cap = 1`, `j = 0` the delay is 0.6 and
the amended bounds hold concretely. -/
theorem c3_witness :
    6/10 * min (1 : ℚ) (1 * 2 ^ (1 - 1)) ≤ backoffDelay 1 1 1 0 ∧
      backoffDelay 1 1 1 0 < 14/10 * min (1 : ℚ) (1 * 2 ^ (1 - 1)) :=
  c3_backoff_bounds 1 1 1 le_rfl (by norm_num) (by norm_num) 0 (by norm_num)

theorem buildXPaymentHeader_fields (cfg : MinterConfig) (sign : String → String)
    (body : PVal) (now : Int) (t : String) (env : XPaymentEnvelope)
    (h : buildXPaymentHeader cfg sign body now t = .ok env) :
    env.payload.authorization.nonce = "0x" ++ t ∧
    env.payload.authorization.validAfter = toString now ∧
    env.payload.authorization.validBefore = toString (now + 900) := by
  unfold buildXPaymentHeader at h
  split at h
  · exact absurd h (by simp)
  · split at h
    · exact absurd h (by simp)
    · split at h
      · exact absurd h (by simp)
      · split at h
        · exact absurd h (by simp)
        · split at h
          · exact absurd h (by simp)
          · split at h
            · injection h with h
              subst h
              exact ⟨rfl, rfl, rfl⟩
            · exact absurd h (by simp)

/-- C2 counterexample: the claim says every attempt of the retry loop
first builds a `SignedPaymentEnvelope` via `build_x_payment_header` and
attaches it before its HTTP GET.  The loop body of
`_mint_once_with_retry` (src/x402_minter/x402_minter.py lines 129-162)
contains no call to `build_x_payment_header` at all: a run whose first
attempt returns 200 performs one GET and zero header builds, so the first
attempt issues its GET without any preceding header build. -/
theorem c2_counterexample :
    mintTrace oracle200 12 = [LoopEvent.httpGet] ∧
    (mintTrace oracle200 12).count LoopEvent.headerBuild = 0 := by
  exact ⟨rfl, rfl⟩

/-- C2 (corrected): the retry loop issues exactly one session GET per
attempt and never calls `build_x_payment_header` (payment headers are
produced by the external `x402_requests` session middleware, outside this
repository); `build_x_payment_header` itself, on each invocation, sets
the nonce to `"0x" + secrets.token_hex(32)`, so two invocations with
distinct random draws never produce the same nonce. -/
theorem c2_no_loop_build_fresh_nonce (oracle : Nat → AttemptOutcome) (maxRetries : Nat)
    (cfg : MinterConfig) (sign : String → String) (body1 body2 : PVal)
    (now1 now2 : Int) (t1 t2 : String) (env1 env2 : XPaymentEnvelope)
    (h1 : buildXPaymentHeader cfg sign body1 now1 t1 = .ok env1)
    (h2 : buildXPaymentHeader cfg sign body2 now2 t2 = .ok env2)
    (hne : t1 ≠ t2) :
    (mintTrace oracle maxRetries).count LoopEvent.headerBuild = 0 ∧
    (mintTrace oracle maxRetries).count LoopEvent.httpGet = (mintOnceWithRetry oracle maxRetries).2 ∧
    env1.payload.authorization.nonce ≠ env2.payload.authorization.nonce := by
  refine ⟨runLoopTrace_headerBuild oracle _ 1, ?_, ?_⟩
  · have hcount := runLoopTrace_httpGet oracle (maxRetries - 1) 1
    rw [mintTrace, mintOnceWithRetry]
    omega
  · have hf1 := (buildXPaymentHeader_fields cfg sign body1 now1 t1 env1 h1).1
    have hf2 := (buildXPaymentHeader_fields cfg sign body2 now2 t2 env2 h2).1
    rw [hf1, hf2]
    intro hEq
    exact hne (string_append_cancel hEq)

/-- C2 witness: concrete builds with draws "ab" and "cd" give envelopes
with nonces `0xab` and `0xcd`, and the concrete all-200 trace has no
header-build event and one GET per attempt. -/
theorem c2_witness :
    (mintTrace oracle200 12).count LoopEvent.headerBuild = 0 ∧
    (mintTrace oracle200 12).count LoopEvent.httpGet = (mintOnceWithRetry oracle200 12).2 ∧
    env0.payload.authorization.nonce ≠ envB.payload.authorization.nonce :=
  c2_no_loop_build_fresh_nonce oracle200 12 cfg0 sign0 validBody0 validBody0 1000 1000
    "ab" "cd" env0 envB rfl rfl (by decide)

/-- C9: every authorization produced by `build_x_payment_header` stores
`str(valid_after)` and `str(valid_before)` with
`valid_before = valid_after + 900` and `valid_after = now`, so the
integer timestamps from which the stored strings are derived differ by
exactly 900, for every input body the builder accepts and at every time
of invocation. -/
theorem c9_valid_window (cfg : MinterConfig) (sign : String → String) (body : PVal)
    (now : Int) (t : String) (env : XPaymentEnvelope)
    (h : buildXPaymentHeader cfg sign body now t = .ok env) :
    env.payload.authorization.validAfter = toString now ∧
    env.payload.authorization.validBefore = toString (now + 900) ∧
    (now + 900) - now = (900 : Int) := by
  obtain ⟨-, h2, h3⟩ := buildXPaymentHeader_fields cfg sign body now t env h
  exact ⟨h2, h3, by omega⟩

/-- C9 witness: a concrete build at `now = 1000` stores "1000" and
"1900". -/
theorem c9_witness :
    env0.payload.authorization.validAfter = toString (1000 : Int) ∧
    env0.payload.authorization.validBefore = toString ((1000 : Int) + 900) ∧
    ((1000 : Int) + 900) - 1000 = (900 : Int) :=
  c9_valid_window cfg0 sign0 validBody0 1000 "ab" env0 rfl

/-- C10: in every per-account result dict, on the success branch and on
the failure branch alike, `private_key_suffix` is `private_key[-6:]`, the
last six characters of the private-key string.  The derived address never
enters `run_minter_for_account`'s result at all (the minter's
`four_last_address_chars` field is unused there), so the suffix is not an
address suffix. -/
theorem c10_suffix_is_key_suffix {α : Type} (pk : String)
    (session : Except PyExc (List (UnitData α))) :
    (runMinterForAccount pk session).private_key_suffix = pyLast6 pk := by
  cases session <;> rfl

/-- C8: the orchestrator produces exactly one `AccountResult` per input
account (the batch always completes), and every account whose session
raised is converted into a failed record carrying the exception's message
(`str(e)`) and kind (`type(e).__name__`) — no account's failure aborts
the batch. -/
theorem c8_batch_completes {α : Type}
    (accounts : List (String × Except PyExc (List (UnitData α)))) :
    (runParallelMints accounts).length = accounts.length ∧
    ∀ pk e, (pk, Except.error e) ∈ accounts →
      (⟨pyLast6 pk, false, Option.none, Option.some e.msg, Option.some e.kind⟩ : AccountResult α)
        ∈ runParallelMints accounts := by
  constructor
  · simp [runParallelMints]
  · intro pk e hmem
    have hconv : runMinterForAccount pk (Except.error e : Except PyExc (List (UnitData α))) =
        ⟨pyLast6 pk, false, Option.none, Option.some e.msg, Option.some e.kind⟩ := rfl
    rw [← hconv]
    exact List.mem_map_of_mem _ hmem

/-- C8 witness: a concrete batch of two accounts, the first raising
`RuntimeError("boom")`: two results are produced, one of which is the
converted failure record. -/
theorem c8_witness :
    (runParallelMints accounts0).length = 2 ∧
    (⟨"adbeef", false, Option.none, Option.some "boom", Option.some "RuntimeError"⟩ :
        AccountResult Nat) ∈ runParallelMints accounts0 := by
  have h := c8_batch_completes accounts0
  refine ⟨h.1.trans rfl, ?_⟩
  have hm := h.2 "0xdeadbeef" ⟨"RuntimeError", "boom"⟩ (List.Mem.head _)
  have hsfx : pyLast6 "0xdeadbeef" = "adbeef" := rfl
  rw [hsfx] at hm
  exact hm

theorem mintFrom_succ_success {α : Type} (decode : String → Option α)
    (oracles : Nat → Nat → AttemptOutcome) (i rem : Nat) (b : String) (n : Nat)
    (hb : mintOnceWithRetry (oracles i) 12 = (.success b, n)) :
    mintFrom decode oracles i (rem + 1) =
      ⟨(mintFrom decode oracles (i + 1) rem).result.map (fun l => unitDataOf decode b :: l),
        unitDataOf decode b :: (mintFrom decode oracles (i + 1) rem).completedUnits,
        (mintFrom decode oracles (i + 1) rem).unitsAttempted + 1⟩ := by
  rw [mintFrom, hb]

theorem mintFrom_succ_permanent {α : Type} (decode : String → Option α)
    (oracles : Nat → Nat → AttemptOutcome) (i rem c n : Nat)
    (hc : mintOnceWithRetry (oracles i) 12 = (.permanentFailure c, n)) :
    mintFrom decode oracles i (rem + 1) =
      ⟨.error (.permanentFailure c), [], 1⟩ := by
  rw [mintFrom, hc]

theorem mintFrom_succ_exhausted {α : Type} (decode : String → Option α)
    (oracles : Nat → Nat → AttemptOutcome) (i rem n : Nat)
    (hc : mintOnceWithRetry (oracles i) 12 = (.exhausted, n)) :
    mintFrom decode oracles i (rem + 1) =
      ⟨.error (.exhausted 12), [], 1⟩ := by
  rw [mintFrom, hc]

theorem mintFrom_prefix {α : Type} (decode : String → Option α)
    (oracles : Nat → Nat → AttemptOutcome) :
    ∀ d i rem : Nat,
      (∀ j, i ≤ j → j < i + d → ∃ b n, mintOnceWithRetry (oracles j) 12 = (.success b, n)) →
      d ≤ rem →
      ∃ ds : List (UnitData α), ds.length = d ∧
        (mintFrom decode oracles i rem).result =
          (mintFrom decode oracles (i + d) (rem - d)).result.map (fun l => ds ++ l) ∧
        (mintFrom decode oracles i rem).completedUnits =
          ds ++ (mintFrom decode oracles (i + d) (rem - d)).completedUnits ∧
        (mintFrom decode oracles i rem).unitsAttempted =
          d + (mintFrom decode oracles (i + d) (rem - d)).unitsAttempted := by
  intro d
  induction d with
  | zero =>
    intro i rem _ _
    refine ⟨[], rfl, ?_, by simp, by simp⟩
    simp only [Nat.add_zero, Nat.sub_zero]
    cases (mintFrom decode oracles i rem).result <;> rfl
  | succ d ih =>
    intro i rem hall hdrem
    obtain ⟨b, n, hb⟩ := hall i le_rfl (by omega)
    obtain ⟨rem', rfl⟩ : ∃ r, rem = r + 1 := ⟨rem - 1, by omega⟩
    obtain ⟨ds', hlen, hres, hcomp, hatt⟩ := ih (i + 1) rem'
      (fun j h1 h2 => hall j (by omega) (by omega)) (by omega)
    have hidx : i + (d + 1) = i + 1 + d := by omega
    have hrem2 : rem' + 1 - (d + 1) = rem' - d := by omega
    rw [mintFrom_succ_success decode oracles i rem' b n hb, hidx, hrem2]
    refine ⟨unitDataOf decode b :: ds', by simp [hlen], ?_, ?_, ?_⟩
    · rw [hres]
      cases (mintFrom decode oracles (i + 1 + d) (rem' - d)).result <;> rfl
    · rw [hcomp]
      simp
    · rw [hatt]
      simp
      omega

/-- C1 counterexample: a `mint` session with `amount = 3` whose unit 2
hits a permanent failure.  One unit did complete (`completedUnits =
[parsed "ok1"]`, `unitsAttempted = 2`), but the session's returned value
is only the raised `X402MintError`: `result.toOption = none`, i.e. the
already-completed `UnitResult`s are *not* part of what the session
yields — the `raise` in `X402Minter.mint` abandons the local `results`
list, so the partial progress IS discarded from the caller's view,
contrary to the claim's "not discarded / yields exactly 1 successful
UnitResult". -/
theorem c1_counterexample :
    (mint decodeId oraclesC1 3).result.toOption = Option.none ∧
    (mint decodeId oraclesC1 3).completedUnits = [UnitData.parsed "ok1"] ∧
    (mint decodeId oraclesC1 3).unitsAttempted = 2 :=
  ⟨rfl, rfl, rfl⟩

/-- C1 (corrected): for `amount ≥ k ≥ 1`, if units `1..k-1` succeed and
unit `k`'s retry loop ends in a failure — a permanent failure (404/410)
or retry-budget exhaustion, `failureErrOf` mapping either to the
`X402MintError` the unit raises — the session aborts immediately:
exactly `k` units are attempted (later units never start), exactly
`k - 1` units completed before the abort, and the session is marked
failed by propagating that error; however the completed units' results
are discarded by the abort: the session's returned value is the bare
error and carries no `UnitResult` (`result.toOption = none`). -/
theorem c1_abort_discards_results {α : Type} (decode : String → Option α)
    (oracles : Nat → Nat → AttemptOutcome) (amount : Int) (k : Nat) (e : SessionError)
    (hk1 : 1 ≤ k) (hka : (k : Int) ≤ amount)
    (hpre : ∀ j, 1 ≤ j → j < k → ∃ b n, mintOnceWithRetry (oracles j) 12 = (.success b, n))
    (hkfail : ∃ m r, mintOnceWithRetry (oracles k) 12 = (r, m) ∧ failureErrOf r = Option.some e) :
    (mint decode oracles amount).result = .error e ∧
    (mint decode oracles amount).result.toOption = Option.none ∧
    (mint decode oracles amount).completedUnits.length = k - 1 ∧
    (mint decode oracles amount).unitsAttempted = k := by
  obtain ⟨m, r, hm, hr⟩ := hkfail
  have hstep : mintFrom decode oracles k ((amount.toNat - k) + 1) =
      (⟨.error e, [], 1⟩ : SessionRun α) := by
    cases r with
    | success b => simp [failureErrOf] at hr
    | permanentFailure c =>
      simp only [failureErrOf, Option.some.injEq] at hr
      subst hr
      exact mintFrom_succ_permanent decode oracles k (amount.toNat - k) c m hm
    | exhausted =>
      simp only [failureErrOf, Option.some.injEq] at hr
      subst hr
      exact mintFrom_succ_exhausted decode oracles k (amount.toNat - k) m hm
  have hpos : ¬ amount ≤ 0 := by omega
  have hmint : mint decode oracles amount = mintFrom decode oracles 1 amount.toNat := by
    rw [mint, if_neg hpos]
  obtain ⟨ds, hlen, hres, hcomp, hatt⟩ := mintFrom_prefix decode oracles (k - 1) 1 amount.toNat
    (fun j h1 h2 => hpre j h1 (by omega)) (by omega)
  have hidx : 1 + (k - 1) = k := by omega
  have hrem : amount.toNat - (k - 1) = (amount.toNat - k) + 1 := by omega
  rw [hidx, hrem, hstep] at hres hcomp hatt
  rw [hmint]
  refine ⟨?_, ?_, ?_, ?_⟩
  · rw [hres]; rfl
  · rw [hres]; rfl
  · rw [hcomp]; simp [hlen]
  · rw [hatt]; show k - 1 + 1 = k; omega

/-- C1 witness: the concrete 3-unit session with a 404 on unit 2,
through the corrected theorem. -/
theorem c1_witness :
    (mint decodeId oraclesC1 3).result = .error (.permanentFailure 404) ∧
    (mint decodeId oraclesC1 3).result.toOption = Option.none ∧
    (mint decodeId oraclesC1 3).completedUnits.length = 2 - 1 ∧
    (mint decodeId oraclesC1 3).unitsAttempted = 2 := by
  refine c1_abort_discards_results decodeId oraclesC1 3 2 (.permanentFailure 404)
    (by decide) (by decide) ?_ ⟨1, .permanentFailure 404, rfl, rfl⟩
  intro j h1 h2
  have hj : j = 1 := by omega
  subst hj
  exact ⟨"ok1", 1, rfl⟩

theorem c7_entry_dict (ekvs : List (String × PVal)) :
    (validateEntry (.dict ekvs) = .ok () ↔ entryClaim ekvs = true) ∧
    isValueError (validateEntry (.dict ekvs)) = !entryClaim ekvs := by
  cases hp : lookupKey ekvs "payTo" with
  | none => simp [validateEntry, pyContains, entryClaim, hp, isValueError]
  | some tv =>
    cases hm : lookupKey ekvs "maxAmountRequired" with
    | none => simp [validateEntry, pyContains, entryClaim, hp, hm, isValueError]
    | some mv =>
      cases tv with
      | str s =>
        by_cases haddr : pyStartsWith s "0x" && (pyStrLen s = 42 || pyStrLen s = 66)
        · cases mv <;>
            simp [validateEntry, pyContains, pyGetItemS, entryClaim, hp, hm, haddr, isValueError]
        · cases mv <;>
            simp [validateEntry, pyContains, pyGetItemS, entryClaim, hp, hm, haddr, isValueError]
      | int n =>
        simp [validateEntry, pyContains, pyGetItemS, entryClaim, hp, hm, isValueError]
      | bool b =>
        simp [validateEntry, pyContains, pyGetItemS, entryClaim, hp, hm, isValueError]
      | none =>
        simp [validateEntry, pyContains, pyGetItemS, entryClaim, hp, hm, isValueError]
      | list xs =>
        simp [validateEntry, pyContains, pyGetItemS, entryClaim, hp, hm, isValueError]
      | dict dkvs =>
        simp [validateEntry, pyContains, pyGetItemS, entryClaim, hp, hm, isValueError]

theorem validateEntry_nondict (e : PVal) (hnd : ∀ ekvs, e ≠ PVal.dict ekvs) :
    validateEntry e ≠ .ok () := by
  cases e with
  | dict ekvs => exact absurd rfl (hnd ekvs)
  | str s =>
    cases hb1 : strContainsSub s "payTo" <;> cases hb2 : strContainsSub s "maxAmountRequired" <;>
      simp [validateEntry, pyContains, pyGetItemS, hb1, hb2]
  | list xs =>
    cases hb1 : xs.any (pvalEqStr "payTo") <;> cases hb2 : xs.any (pvalEqStr "maxAmountRequired") <;>
      simp [validateEntry, pyContains, pyGetItemS, hb1, hb2]
  | int n => simp [validateEntry, pyContains]
  | bool b => simp [validateEntry, pyContains]
  | none => simp [validateEntry, pyContains]

/-- C7 counterexample: for the body `{"accepts": [5]}` — invalid per the
claim's own list (its first entry lacks `payTo` and `maxAmountRequired`)
— the validator does not raise a `ValueError`: the Python membership test
`"payTo" not in 5` raises a `TypeError`, so the claim's "raises a fatal
ValidationError exactly when the body is invalid" fails on this input. -/
theorem c7_counterexample :
    validatePaymentBody badEntryBody0 = .error .typeError ∧
    validBodyClaim badEntryBody0 = false ∧
    isValueError (validatePaymentBody badEntryBody0) = false :=
  ⟨rfl, rfl, rfl⟩

/-- C7 (corrected): `_validate_payment_body` succeeds exactly on the
bodies the claim calls valid (unconditionally), and — provided the first
`accepts` entry is a mapping whenever it is reached — it raises a
`ValueError` exactly when the body is invalid.  Without that proviso a
non-container first entry makes the membership test raise `TypeError`
instead (and a list/string entry that happens to pass the membership
tests makes the subscription raise `TypeError`). -/
theorem c7_validation_iff (body : PVal) :
    (validatePaymentBody body = .ok () ↔ validBodyClaim body = true) ∧
    (firstEntryIsMapping body = true →
      isValueError (validatePaymentBody body) = !validBodyClaim body) := by
  cases body with
  | str s => simp [validatePaymentBody, validBodyClaim, firstEntryIsMapping, isValueError]
  | int n => simp [validatePaymentBody, validBodyClaim, firstEntryIsMapping, isValueError]
  | bool b => simp [validatePaymentBody, validBodyClaim, firstEntryIsMapping, isValueError]
  | none => simp [validatePaymentBody, validBodyClaim, firstEntryIsMapping, isValueError]
  | list xs => simp [validatePaymentBody, validBodyClaim, firstEntryIsMapping, isValueError]
  | dict kvs =>
    cases hacc : lookupKey kvs "accepts" with
    | none =>
      simp [validatePaymentBody, validBodyClaim, firstEntryIsMapping, hacc, isValueError]
    | some acc =>
      cases acc with
      | list xs =>
        cases xs with
        | nil =>
          simp [validatePaymentBody, validBodyClaim, firstEntryIsMapping, hacc, isValueError]
        | cons e rest =>
          cases e with
          | dict ekvs =>
            have h := c7_entry_dict ekvs
            constructor
            · simpa [validatePaymentBody, validBodyClaim, hacc] using h.1
            · intro _
              simpa [validatePaymentBody, validBodyClaim, hacc] using h.2
          | str s =>
            have h := validateEntry_nondict (.str s) (fun ekvs hh => by cases hh)
            simp [validatePaymentBody, validBodyClaim, firstEntryIsMapping, hacc, h]
          | int n =>
            have h := validateEntry_nondict (.int n) (fun ekvs hh => by cases hh)
            simp [validatePaymentBody, validBodyClaim, firstEntryIsMapping, hacc, h]
          | bool b =>
            have h := validateEntry_nondict (.bool b) (fun ekvs hh => by cases hh)
            simp [validatePaymentBody, validBodyClaim, firstEntryIsMapping, hacc, h]
          | none =>
            have h := validateEntry_nondict PVal.none (fun ekvs hh => by cases hh)
            simp [validatePaymentBody, validBodyClaim, firstEntryIsMapping, hacc, h]
          | list ys =>
            have h := validateEntry_nondict (.list ys) (fun ekvs hh => by cases hh)
            simp [validatePaymentBody, validBodyClaim, firstEntryIsMapping, hacc, h]
      | str s =>
        simp [validatePaymentBody, validBodyClaim, firstEntryIsMapping, hacc, isValueError]
      | int n =>
        simp [validatePaymentBody, validBodyClaim, firstEntryIsMapping, hacc, isValueError]
      | bool b =>
        simp [validatePaymentBody, validBodyClaim, firstEntryIsMapping, hacc, isValueError]
      | none =>
        simp [validatePaymentBody, validBodyClaim, firstEntryIsMapping, hacc, isValueError]
      | dict dkvs =>
        simp [validatePaymentBody, validBodyClaim, firstEntryIsMapping, hacc, isValueError]

/-- C7 witness: the concrete valid body passes the validator, and on it
the ValueError characterization holds with the mapping proviso
discharged. -/
theorem c7_witness :
    validatePaymentBody validBody0 = .ok () ∧
    isValueError (validatePaymentBody validBody0) = !validBodyClaim validBody0 :=
  ⟨(c7_validation_iff validBody0).1.mpr rfl, (c7_validation_iff validBody0).2 rfl⟩
